import Mathlib

/-!
Shallow embedding of the rnnoise-cli module-graph orchestrator
(`src/rnnoise_cli/pulse/pulse.py` and the control selection of
`src/rnnoise_cli/commands.py`).

The audio server is modelled as an oracle (`Server`): the live source
list, the list of output streams (each identified by the source index it
consumes), the result of the n-th `module_load` call of a run, and
whether `module_unload` of a given handle succeeds.  The filesystem is a
map from paths (component lists) to file states plus a set of created
directories; Python's `pickle` round trip is modelled as faithful
storage of the record, with `corrupt` standing for a file whose contents
do not deserialize to a `LoadInfo` (the `ValueError` case of
`from_pickle`).
-/

namespace RNNoise

/-- A pulse source as reported by the audio server
(`pulsectl.PulseSourceInfo`): index, name, sample rate, channel count. -/
structure SourceInfo where
  index : Nat
  name : String
  rate : Nat
  channels : Nat
  deriving Repr, DecidableEq

/-- The persisted load record (`LoadInfo` dataclass): device, control,
and the map from logical stage name to server handle.  Python dicts with
string keys are modelled as key-unique association lists in insertion
order. -/
structure LoadInfo where
  device : SourceInfo
  control : Int
  modules : List (String × Nat)
  deriving Repr, DecidableEq

/-- Filesystem paths as component lists. -/
abbrev FPath := List String

/-- Models `CACHE_PATH = Path.home() / ".cache" / "rnnoise_cli"`. -/
def CACHE_PATH : FPath := ["~", ".cache", "rnnoise_cli"]

/-- Models `LOADED_MODULES_PATH = CACHE_PATH / "load_info.pickle"`. -/
def LOADED_MODULES_PATH : FPath := CACHE_PATH ++ ["load_info.pickle"]

/-- State of one file: absent, present but not a valid pickled
`LoadInfo`, or a valid record. -/
inductive FileState
  | absent
  | corrupt
  | valid (info : LoadInfo)
  deriving Repr, DecidableEq

/-- The filesystem: file contents per path and the set of directories
that exist. -/
structure FS where
  files : FPath → FileState
  dirs : FPath → Bool

/-- Parent directory of a path (`Path.parent`). -/
def parentDir (p : FPath) : FPath := p.dropLast

/-- Models `mkdir(parents=True, exist_ok=True)`: the directory and all its
ancestors come into existence. -/
def FS.mkdirParents (fs : FS) (d : FPath) : FS :=
  { fs with dirs := fun q => List.isPrefixOf q d || fs.dirs q }

/-- Overwrite the contents of one file. -/
def FS.setFile (fs : FS) (p : FPath) (c : FileState) : FS :=
  { fs with files := fun q => if q = p then c else fs.files q }

/-- Errors raised by `LoadInfo.from_pickle`: `FileNotFoundError` when
the path does not exist, `ValueError` when the file does not contain a
pickled `LoadInfo`. -/
inductive ReadError
  | fileNotFound
  | valueError
  deriving Repr, DecidableEq

/-- Models `LoadInfo.from_pickle(pickle_path)`: open the file and unpickle it,
raising `FileNotFoundError` or `ValueError`. -/
def from_pickle (fs : FS) (pickle_path : FPath) : Except ReadError LoadInfo :=
  match fs.files pickle_path with
  | .absent => .error .fileNotFound
  | .corrupt => .error .valueError
  | .valid info => .ok info

/-- Models `LoadInfo.write_pickle(pickle_path)`: creates `pickle_path.parent`
(with parents), then opens `LOADED_MODULES_PATH` — not `pickle_path` —
for writing and dumps the record there. -/
def write_pickle (info : LoadInfo) (pickle_path : FPath) (fs : FS) : FS :=
  (fs.mkdirParents (parentDir pickle_path)).setFile LOADED_MODULES_PATH (.valid info)

/-- Models `PulseInterface.get_loaded_modules`: read the default pickle file,
returning the empty map on `ValueError` or `FileNotFoundError`. -/
def get_loaded_modules (fs : FS) : List (String × Nat) :=
  match from_pickle fs LOADED_MODULES_PATH with
  | .ok info => info.modules
  | .error _ => []

/-- The audio server as seen by one orchestration run: the live source
list (`pulse.source_list()`), the source indices consumed by the active
output streams (`pulse.source_output_list()`, each entry's `.source`),
the handle returned by the n-th `pulse.module_load` call of the run
(`none` = the server rejects the load and the call raises), and whether
`pulse.module_unload` of a handle succeeds (`false` =
`PulseOperationFailed`). -/
structure Server where
  sources : List SourceInfo
  outputs : List Nat
  loadResult : Nat → Option Nat
  unloadOk : Nat → Bool

/-- Exceptions of `PulseInterface` (`exceptions.py`), plus the load
failure propagated from `pulsectl`. -/
inductive PulseError
  | notActivated
  | rnnInUse
  | noLoadedModules
  | moduleLoadFailed (stage : String)
  deriving Repr, DecidableEq

def null_sink_name : String := "rnnoise_mic_denoised_out"

def ladspa_sink_name : String := "rnnoise_mic_raw_in"

def loopback_key : String := "loopback"

def remap_source_name : String := "rnnoise_denoised"

/-- The four logical stage names checked by `rnn_is_loaded`. -/
def rnn_names : List String :=
  [null_sink_name, ladspa_sink_name, loopback_key, remap_source_name]

/-- Stand-in for the packaged plugin path
(`importlib.resources.path("rnnoise_cli.data", "librnnoise_ladspa.so")`). -/
def plugin_path : String := "librnnoise_ladspa.so"

/-- Models `PulseInterface.get_source_by_name`: `pulse.get_source_by_name`,
with `PulseIndexError` turned into `ValueError` (here: `none`). -/
def get_source_by_name (srv : Server) (name : String) : Option SourceInfo :=
  srv.sources.find? (fun s => s.name == name)

/-- Models `PulseInterface.get_source_by_num`:
`next(s for s in source_list() if s.index == num)`, with `StopIteration`
turned into `ValueError` (here: `none`). -/
def get_source_by_num (srv : Server) (num : Int) : Option SourceInfo :=
  srv.sources.find? (fun s => (s.index : Int) == num)

/-- Helper for `pyInt`: fold a digit string into a number, failing on
the first non-digit character. -/
def digitsToNat (acc : Nat) : List Char → Option Nat
  | [] => some acc
  | c :: rest => if c.isDigit then digitsToNat (acc * 10 + (c.toNat - 48)) rest else none

/-- Models Python `int(s)` on identifier strings: an optional sign
followed by at least one digit (surrounding whitespace and underscore
separators, which no device identifier uses, are not modelled). -/
def pyInt (s : String) : Option Int :=
  match s.data with
  | [] => none
  | '-' :: c :: rest => (digitsToNat 0 (c :: rest)).map (fun n => -(n : Int))
  | '+' :: c :: rest => (digitsToNat 0 (c :: rest)).map (fun n => (n : Int))
  | l => (digitsToNat 0 l).map (fun n => (n : Int))

/-- Models `PulseInterface.get_source`: `int(identifier)` feeding
`get_source_by_num`; a `ValueError` from either the parse or the
numeric lookup falls through to `get_source_by_name`, whose own
`ValueError` yields `None`. -/
def get_source (srv : Server) (identifier : String) : Option SourceInfo :=
  match pyInt identifier with
  | some n =>
    match get_source_by_num srv n with
    | some s => some s
    | none => get_source_by_name srv identifier
  | none => get_source_by_name srv identifier

/-- Models `PulseInterface.streams_using_rnnoise`: resolve the remap source by
name (`False` when absent), then test whether any output stream's
`.source` equals its index. -/
def streams_using_rnnoise (srv : Server) : Bool :=
  match get_source_by_name srv remap_source_name with
  | none => false
  | some s => srv.outputs.any (fun o => o == s.index)

/-- Models `PulseInterface.rnn_is_loaded`: false when the pickled module map is
empty; otherwise, whether any live source bears one of the four stage
names. -/
def rnn_is_loaded (srv : Server) (fs : FS) : Bool :=
  if (get_loaded_modules fs).isEmpty then false
  else srv.sources.any (fun s => rnn_names.contains s.name)

/-- Python dict assignment `d[k] = v` on a key-unique association list:
replace in place when the key is present, append otherwise. -/
def dinsert : List (String × Nat) → String → Nat → List (String × Nat)
  | [], k, v => [(k, v)]
  | (k1, v1) :: rest, k, v =>
    if k1 == k then (k, v) :: rest else (k1, v1) :: dinsert rest k v

/-- The `module-ladspa-sink` option string built by `load_modules`
(apostrophes written as `\x27`). -/
def ladspa_sink_opts (control : Int) (stereo : Bool) : String :=
  "sink_name=" ++ ladspa_sink_name ++ " " ++
  "sink_master=" ++ null_sink_name ++ " " ++
  "label=noise_suppressor_" ++ (if stereo then "stereo" else "mono") ++ " " ++
  "plugin=\"" ++ plugin_path ++ "\" " ++
  "control=" ++ toString control ++ " " ++
  "sink_properties=\"device.description=\x27RNNoise Raw Input Sink\x27\""

/-- Models `PulseInterface.load_modules(device, control, verbose, set_default)`:
seed the handle map from `get_loaded_modules`, then load the four stages
in order (null sink, ladspa sink, loopback, remap source), storing each
returned handle under its stage name.  A rejected load raises out of the
function immediately, leaving the filesystem untouched: the record is
pickled only after all four loads succeed, by `write_pickle` at the
default path.  On success the result carries the `LoadInfo` and the
ladspa option string that was passed to the filter stage. -/
def load_modules (srv : Server) (fs : FS) (device : SourceInfo) (control : Int)
    (set_default : Bool) : Except PulseError (LoadInfo × String) × FS :=
  let loaded0 := get_loaded_modules fs
  match srv.loadResult 0 with
  | none => (.error (.moduleLoadFailed null_sink_name), fs)
  | some h0 =>
    let loaded1 := dinsert loaded0 null_sink_name h0
    let stereo := device.channels == 2
    let opts := ladspa_sink_opts control stereo
    match srv.loadResult 1 with
    | none => (.error (.moduleLoadFailed ladspa_sink_name), fs)
    | some h1 =>
      let loaded2 := dinsert loaded1 ladspa_sink_name h1
      match srv.loadResult 2 with
      | none => (.error (.moduleLoadFailed loopback_key), fs)
      | some h2 =>
        let loaded3 := dinsert loaded2 loopback_key h2
        match srv.loadResult 3 with
        | none => (.error (.moduleLoadFailed remap_source_name), fs)
        | some h3 =>
          let loaded4 := dinsert loaded3 remap_source_name h3
          let info : LoadInfo := ⟨device, control, loaded4⟩
          (.ok (info, opts), write_pickle info LOADED_MODULES_PATH fs)

/-- The unload loop of `unload_modules`: for each recorded handle in
order, request `module_unload`, swallowing `PulseOperationFailed` and
continuing.  Returns each requested handle with its success flag. -/
def unload_loop (srv : Server) : List (String × Nat) → List (Nat × Bool)
  | [] => []
  | (_, idx) :: rest => (idx, srv.unloadOk idx) :: unload_loop srv rest

/-- Models `PulseInterface.unload_modules(verbose, force)`: without `force`, an
active consumer stream raises `RNNInUseException`; an empty recorded
module map raises `NoLoadedModulesException` (both before touching the
pickle file); otherwise every recorded handle is unloaded with per-stage
failures swallowed, and the pickle file is unlinked
(`missing_ok=True`). -/
def unload_modules (srv : Server) (fs : FS) (force : Bool) :
    Except PulseError (List (Nat × Bool)) × FS :=
  if !force && streams_using_rnnoise srv then (.error .rnnInUse, fs)
  else
    let modules := get_loaded_modules fs
    if modules.isEmpty then (.error .noLoadedModules, fs)
    else (.ok (unload_loop srv modules), fs.setFile LOADED_MODULES_PATH .absent)

/-- Models `PulseInterface.change_control_level(control, verbose, force,
set_default)`: requires `rnn_is_loaded`, then `force` or no consumer
stream, then a readable pickle, then unloads and reloads with the old
device and the new control.  The source forwards only `verbose` to
`unload_modules` — `cls.unload_modules(verbose)` — so the inner call
runs with `force=False` whatever the caller passed. -/
def change_control_level (srv : Server) (fs : FS) (control : Int) (force : Bool)
    (set_default : Bool) : Except PulseError (LoadInfo × String) × FS :=
  if !(rnn_is_loaded srv fs) then (.error .notActivated, fs)
  else if !force && streams_using_rnnoise srv then (.error .rnnInUse, fs)
  else
    match from_pickle fs LOADED_MODULES_PATH with
    | .error _ => (.error .notActivated, fs)
    | .ok old =>
      match unload_modules srv fs false with
      | (.error e, fs2) => (.error e, fs2)
      | (.ok _, fs2) => load_modules srv fs2 old.device control set_default

/-- Control selection of the `activate` command (`commands.py`):
`if control is None or not 0 <= control <= 100: control = 50`. -/
def activate_control_choice (control : Option Int) : Int :=
  match control with
  | none => 50
  | some c => if 0 ≤ c ∧ c ≤ 100 then c else 50

/-! Concrete fixtures used by counterexamples and witnesses. -/

/-- Device of the resolution scenario, index 0, mono. -/
def devA : SourceInfo := ⟨0, "alsa_input.a", 44100, 1⟩

/-- Device of the resolution scenario, index 1. -/
def devB : SourceInfo := ⟨1, "alsa_input.b", 44100, 1⟩

/-- A device whose name is the digit string "2" at index 0. -/
def devNamedTwo : SourceInfo := ⟨0, "2", 44100, 1⟩

/-- The live remapped source, at index 5. -/
def remapSrc : SourceInfo := ⟨5, remap_source_name, 44100, 1⟩

/-- A persisted record for a full four-stage pipeline on `devA`. -/
def demoInfo : LoadInfo :=
  ⟨devA, 50, [(null_sink_name, 10), (ladspa_sink_name, 11),
              (loopback_key, 12), (remap_source_name, 13)]⟩

/-- Filesystem holding `demoInfo` at the default pickle path. -/
def fsActive : FS :=
  ⟨fun q => if q = LOADED_MODULES_PATH then .valid demoInfo else .absent,
   fun _ => false⟩

/-- Filesystem with no files at all. -/
def fsEmpty : FS := ⟨fun _ => .absent, fun _ => false⟩

/-- Server with the remapped source live and one stream consuming it. -/
def srvBusy : Server := ⟨[remapSrc], [5], fun _ => some 20, fun _ => true⟩

/-- Server with the remapped source live and no consumer streams. -/
def srvIdle : Server := ⟨[remapSrc], [], fun _ => some 20, fun _ => true⟩

/-- Server of the device-resolution scenario: two plain input devices. -/
def srvDir : Server := ⟨[devA, devB], [], fun _ => none, fun _ => true⟩

/-- Server with a device literally named "2" and no device at index 2. -/
def srvNumName : Server := ⟨[devNamedTwo, devB], [], fun _ => none, fun _ => true⟩

/-- Server that accepts the first `module_load` (handle 101) and rejects
the second. -/
def srvFailStage2 : Server :=
  ⟨[remapSrc], [], fun n => if n == 0 then some 101 else none, fun _ => true⟩

/-- The record persisted by the out-of-range reconfigure run below. -/
def info150 : LoadInfo :=
  ⟨devA, 150, [(null_sink_name, 20), (ladspa_sink_name, 20),
               (loopback_key, 20), (remap_source_name, 20)]⟩

/-! Helper lemmas shared between claims. -/

theorem load_modules_ok_shape (srv : Server) (fs : FS) (device : SourceInfo)
    (control : Int) (sd : Bool) (info : LoadInfo) (opts : String)
    (h : (load_modules srv fs device control sd).1 = .ok (info, opts)) :
    info.device = device ∧ info.control = control ∧
    opts = ladspa_sink_opts control (device.channels == 2) := by
  unfold load_modules at h
  rcases h0 : srv.loadResult 0 with _ | h0v <;> rw [h0] at h <;> simp at h
  rcases h1 : srv.loadResult 1 with _ | h1v <;> rw [h1] at h <;> simp at h
  rcases h2 : srv.loadResult 2 with _ | h2v <;> rw [h2] at h <;> simp at h
  rcases h3 : srv.loadResult 3 with _ | h3v <;> rw [h3] at h <;> simp at h
  obtain ⟨hinfo, hopts⟩ := h
  subst hinfo
  exact ⟨rfl, rfl, hopts.symm⟩

/-- C1: on an active pipeline (`demoInfo` persisted, remapped source
live) with a consumer stream attached to the remapped source (`srvBusy`
output stream on index 5), `change_control_level` called with
`force = true` still fails with `RNNInUseException`: the source passes
only `verbose` to `unload_modules`, so the inner teardown runs with
`force = False` and its in-use guard fires.  This contradicts the claim
(and the function's own documentation of `force`) that with `force` the
reconfigure does not fail with the in-use error. -/
theorem change_control_level_force_still_fails :
    rnn_is_loaded srvBusy fsActive = true ∧
    streams_using_rnnoise srvBusy = true ∧
    (change_control_level srvBusy fsActive 30 true false).1 = .error .rnnInUse :=
  ⟨rfl, rfl, rfl⟩

/-- C3 counterexample: with an initially empty store, the server accepts
stage 1 (handle 101) and rejects stage 2; `load_modules` propagates the
failure and the persisted record is still absent — the successful stage
handle 101 was NOT persisted, refuting incremental persistence. -/
theorem load_modules_partial_failure_cex :
    srvFailStage2.loadResult 0 = some 101 ∧
    (load_modules srvFailStage2 fsEmpty devA 50 true).1 =
      .error (.moduleLoadFailed ladspa_sink_name) ∧
    (load_modules srvFailStage2 fsEmpty devA 50 true).2.files LOADED_MODULES_PATH =
      .absent :=
  ⟨rfl, rfl, rfl⟩

/-- C3 amended: `load_modules` leaves the filesystem completely
unchanged whenever any stage load fails (the record is written only
after all four stages succeed), and on success the default path holds
exactly the returned record. -/
theorem load_modules_persists_only_on_success (srv : Server) (fs : FS)
    (device : SourceInfo) (control : Int) (sd : Bool) :
    (∀ e, (load_modules srv fs device control sd).1 = .error e →
      (load_modules srv fs device control sd).2 = fs) ∧
    (∀ info opts, (load_modules srv fs device control sd).1 = .ok (info, opts) →
      (load_modules srv fs device control sd).2.files LOADED_MODULES_PATH =
        .valid info) := by
  unfold load_modules
  rcases h0 : srv.loadResult 0 with _ | h0v <;>
    rcases h1 : srv.loadResult 1 with _ | h1v <;>
    rcases h2 : srv.loadResult 2 with _ | h2v <;>
    rcases h3 : srv.loadResult 3 with _ | h3v <;>
    constructor <;>
    simp [write_pickle, FS.setFile, FS.mkdirParents]

/-- C3 amended, witness: at the concrete partial-failure run the store
is returned untouched. -/
theorem load_modules_persists_only_on_success_witness :
    (load_modules srvFailStage2 fsEmpty devA 50 true).2 = fsEmpty :=
  (load_modules_persists_only_on_success srvFailStage2 fsEmpty devA 50 true).1
    (.moduleLoadFailed ladspa_sink_name) rfl

/-- C8: saving a record with `write_pickle` at the default path and
loading it back with `from_pickle` at the default path yields the very
record that was saved, whatever the previous filesystem contents. -/
theorem save_load_roundtrip (info : LoadInfo) (fs : FS) :
    from_pickle (write_pickle info LOADED_MODULES_PATH fs) LOADED_MODULES_PATH =
      .ok info := by
  simp [from_pickle, write_pickle, FS.setFile]

/-- C9: `write_pickle` at a path `p` other than the default creates
`p`'s parent directory but stores the record at the fixed default path,
so when nothing existed at `p` beforehand, `from_pickle p` right after
`write_pickle p` raises `FileNotFoundError`: the save/load round trip
holds only at the default path. -/
theorem write_pickle_wrong_path (info : LoadInfo) (p : FPath) (fs : FS)
    (hp : p ≠ LOADED_MODULES_PATH) (habs : fs.files p = .absent) :
    (write_pickle info p fs).dirs (parentDir p) = true ∧
    (write_pickle info p fs).files LOADED_MODULES_PATH = .valid info ∧
    from_pickle (write_pickle info p fs) p = .error .fileNotFound := by
  refine ⟨?_, ?_, ?_⟩ <;>
    simp [write_pickle, FS.setFile, FS.mkdirParents, from_pickle, hp, habs]

/-- C9 witness: writing at `["~", "other.pickle"]` over the empty
filesystem creates the parent, stores at the default path, and reading
back at the alternate path fails with `FileNotFoundError`. -/
theorem write_pickle_wrong_path_witness :
    (write_pickle demoInfo ["~", "other.pickle"] fsEmpty).dirs
        (parentDir ["~", "other.pickle"]) = true ∧
    (write_pickle demoInfo ["~", "other.pickle"] fsEmpty).files
        LOADED_MODULES_PATH = .valid demoInfo ∧
    from_pickle (write_pickle demoInfo ["~", "other.pickle"] fsEmpty)
        ["~", "other.pickle"] = .error .fileNotFound :=
  write_pickle_wrong_path demoInfo ["~", "other.pickle"] fsEmpty (by decide) rfl

/-- C2 counterexample: with an active idle pipeline, reconfiguring via
`change_control_level` with the out-of-range control 150 succeeds and
both persists control 150 and passes `control=150` in the ladspa option
string — the documented default 50 is not substituted on this path. -/
theorem change_control_level_out_of_range_cex :
    (change_control_level srvIdle fsActive 150 false false).1 =
      .ok (info150, ladspa_sink_opts 150 false) ∧
    (change_control_level srvIdle fsActive 150 false false).2.files
        LOADED_MODULES_PATH = .valid info150 ∧
    info150.control = 150 ∧ (150 : Int) ≠ 50 :=
  ⟨rfl, rfl, rfl, by decide⟩

/-- C2 amended: only the `activate` command coerces an out-of-range
control to 50; `change_control_level` forwards the given control
unchanged, so whenever it succeeds the persisted control and the control
in the ladspa option string equal the supplied value, in or out of
range. -/
theorem control_coercion_amended (c : Int) :
    (¬(0 ≤ c ∧ c ≤ 100) → activate_control_choice (some c) = 50) ∧
    (∀ srv fs force sd info opts,
      (change_control_level srv fs c force sd).1 = .ok (info, opts) →
      info.control = c ∧ opts = ladspa_sink_opts c (info.device.channels == 2)) := by
  constructor
  · intro hc
    simp [activate_control_choice, hc]
  · intro srv fs force sd info opts h
    unfold change_control_level at h
    split at h
    · simp at h
    split at h
    · simp at h
    split at h
    · simp at h
    split at h
    · simp at h
    rename_i old hpickle fs2 hunload
    obtain ⟨hdev, hctrl, hopts⟩ :=
      load_modules_ok_shape _ _ _ _ _ _ _ h
    exact ⟨hctrl, by rw [hopts, hdev]⟩

/-- C2 amended, witness: at the concrete out-of-range run, activate
would coerce 150 to 50, while the reconfigure path persists 150. -/
theorem control_coercion_amended_witness :
    activate_control_choice (some 150) = 50 ∧ info150.control = 150 :=
  ⟨(control_coercion_amended 150).1 (by decide),
   ((control_coercion_amended 150).2 srvIdle fsActive false false info150
      (ladspa_sink_opts 150 false) rfl).1⟩

/-- C4 counterexample: identifier "2" parses as the integer 2 and no
device has index 2, yet `get_source` does not fail: it falls back to
exact-name lookup and returns the device literally named "2" (which has
index 0), contradicting the claimed index-only resolution for integer
identifiers. -/
theorem get_source_fallback_cex :
    pyInt "2" = some 2 ∧
    get_source_by_num srvNumName 2 = none ∧
    get_source srvNumName "2" = some devNamedTwo ∧
    devNamedTwo.index ≠ 2 :=
  ⟨by decide, by decide, by decide, by decide⟩

/-- C4 amended: the scenario holds as claimed — "1" resolves by index to
the second device, "alsa_input.a" by name to the first, "nope" to no
device — but resolution is not strictly index-only for integer
identifiers: when the numeric parse succeeds and no device has that
index, `get_source` falls back to exact name lookup (and likewise uses
name lookup when the parse fails), returning no device only when both
lookups fail; there is still no fuzzy matching. -/
theorem get_source_amended :
    (get_source srvDir "1" = some devB ∧
     get_source srvDir "alsa_input.a" = some devA ∧
     get_source srvDir "nope" = none) ∧
    (∀ srv id n, pyInt id = some n → get_source_by_num srv n = none →
      get_source srv id = get_source_by_name srv id) ∧
    (∀ srv id, pyInt id = none →
      get_source srv id = get_source_by_name srv id) := by
  refine ⟨⟨by decide, by decide, by decide⟩, ?_, ?_⟩
  · intro srv id n hparse hnum
    unfold get_source
    rw [hparse]
    simp [hnum]
  · intro srv id hparse
    unfold get_source
    rw [hparse]

/-- C4 amended, witness: the fallback branch applied at the concrete
server with a device named "2". -/
theorem get_source_amended_witness :
    get_source srvNumName "2" = get_source_by_name srvNumName "2" :=
  (get_source_amended).2.1 srvNumName "2" 2 (by decide) (by decide)

/-- C5: the liveness check is true exactly when a readable persisted
record with a non-empty stage map exists AND at least one of the four
logical stage names appears in the server's live source list; in
particular it is false when no record exists (or its map is empty), and
false when a record exists but none of the four names is live. -/
theorem rnn_is_loaded_iff (srv : Server) (fs : FS) :
    rnn_is_loaded srv fs = true ↔
      ((∃ info, from_pickle fs LOADED_MODULES_PATH = .ok info ∧
          info.modules ≠ []) ∧
       ∃ s ∈ srv.sources, s.name ∈ rnn_names) := by
  unfold rnn_is_loaded get_loaded_modules
  cases h : from_pickle fs LOADED_MODULES_PATH with
  | error e => simp [h]
  | ok info =>
    by_cases hm : info.modules = [] <;>
      simp [h, hm, List.isEmpty_iff, List.any_eq_true, List.elem_iff]

/-- Requests issued by the unload loop: every recorded handle is
requested, in order, whatever the per-handle outcomes. -/
theorem unload_loop_requests (srv : Server) (l : List (String × Nat)) :
    (unload_loop srv l).map Prod.fst = l.map Prod.snd := by
  induction l with
  | nil => rfl
  | cons hd tl ih => cases hd; simp [unload_loop, ih]

/-- C6: past its guards (`force`, or no consumer stream) with a
non-empty recorded module map, `unload_modules` succeeds
unconditionally: it requests an unload for every recorded stage handle
(per-stage failures — `srv.unloadOk` false — are swallowed and do not
abort the loop or surface), and the persisted record is removed
regardless of those per-stage outcomes. -/
theorem unload_modules_unloads_all (srv : Server) (fs : FS) (force : Bool)
    (hguard : force = true ∨ streams_using_rnnoise srv = false)
    (hmods : get_loaded_modules fs ≠ []) :
    (unload_modules srv fs force).1 =
      .ok (unload_loop srv (get_loaded_modules fs)) ∧
    (unload_loop srv (get_loaded_modules fs)).map Prod.fst =
      (get_loaded_modules fs).map Prod.snd ∧
    (unload_modules srv fs force).2.files LOADED_MODULES_PATH = .absent := by
  have hg : (!force && streams_using_rnnoise srv) = false := by
    rcases hguard with h | h <;> simp [h]
  unfold unload_modules
  rw [hg]
  simp [List.isEmpty_iff, hmods, unload_loop_requests, FS.setFile]

/-- C6 witness: tearing down the concrete active pipeline with no
consumer stream requests all four recorded handles and clears the
record. -/
theorem unload_modules_unloads_all_witness :
    (unload_modules srvIdle fsActive false).1 =
      .ok (unload_loop srvIdle (get_loaded_modules fsActive)) ∧
    (unload_loop srvIdle (get_loaded_modules fsActive)).map Prod.fst =
      (get_loaded_modules fsActive).map Prod.snd ∧
    (unload_modules srvIdle fsActive false).2.files LOADED_MODULES_PATH =
      .absent :=
  unload_modules_unloads_all srvIdle fsActive false (Or.inr rfl) (by decide)

/-- C7: with no persisted record and no consumer stream,
`unload_modules` fails with `NoLoadedModulesException` and returns the
filesystem exactly as it was: the record is neither created nor
modified (the unlink line is never reached). -/
theorem unload_modules_nothing_to_do (srv : Server) (fs : FS) (force : Bool)
    (habs : fs.files LOADED_MODULES_PATH = .absent)
    (hstream : streams_using_rnnoise srv = false) :
    unload_modules srv fs force = (.error .noLoadedModules, fs) := by
  unfold unload_modules
  simp [hstream, get_loaded_modules, from_pickle, habs]

/-- C7 witness: deactivating over the empty filesystem with no streams
fails with `NoLoadedModulesException` and leaves the store untouched. -/
theorem unload_modules_nothing_to_do_witness :
    unload_modules srvDir fsEmpty false = (.error .noLoadedModules, fsEmpty) :=
  unload_modules_nothing_to_do srvDir fsEmpty false rfl rfl

/-- C10: a corrupt record at the default path is treated by every
public operation exactly like an absent one.  `from_pickle` is the only
level distinguishing them (`ValueError` vs `FileNotFoundError`);
`get_loaded_modules` collapses both to the empty map, so
`rnn_is_loaded` is false, `unload_modules` (guards permitting) raises
`NoLoadedModulesException`, and `load_modules` produces the same result
from a corrupt store as from an absent one, accumulating handles from
the empty map. -/
theorem corrupt_record_like_absent (srv : Server) (fs : FS)
    (device : SourceInfo) (control : Int) (sd force : Bool) :
    from_pickle (fs.setFile LOADED_MODULES_PATH .corrupt) LOADED_MODULES_PATH =
      .error .valueError ∧
    from_pickle (fs.setFile LOADED_MODULES_PATH .absent) LOADED_MODULES_PATH =
      .error .fileNotFound ∧
    get_loaded_modules (fs.setFile LOADED_MODULES_PATH .corrupt) = [] ∧
    rnn_is_loaded srv (fs.setFile LOADED_MODULES_PATH .corrupt) = false ∧
    (streams_using_rnnoise srv = false →
      (unload_modules srv (fs.setFile LOADED_MODULES_PATH .corrupt) force).1 =
        .error .noLoadedModules) ∧
    (load_modules srv (fs.setFile LOADED_MODULES_PATH .corrupt) device control sd).1 =
      (load_modules srv (fs.setFile LOADED_MODULES_PATH .absent) device control sd).1 := by
  have hc : get_loaded_modules (fs.setFile LOADED_MODULES_PATH .corrupt) = [] := by
    simp [get_loaded_modules, from_pickle, FS.setFile]
  have ha : get_loaded_modules (fs.setFile LOADED_MODULES_PATH .absent) = [] := by
    simp [get_loaded_modules, from_pickle, FS.setFile]
  refine ⟨by simp [from_pickle, FS.setFile], by simp [from_pickle, FS.setFile],
    hc, by simp [rnn_is_loaded, hc], ?_, ?_⟩
  · intro hstream
    unfold unload_modules
    simp [hstream, hc]
  · rcases h0 : srv.loadResult 0 with _ | h0v <;>
      rcases h1 : srv.loadResult 1 with _ | h1v <;>
      rcases h2 : srv.loadResult 2 with _ | h2v <;>
      rcases h3 : srv.loadResult 3 with _ | h3v <;>
      simp [load_modules, hc, ha, h0, h1, h2, h3]

/-- C10 witness: over the empty filesystem made corrupt at the default
path, with no consumer streams, deactivation reports
`NoLoadedModulesException`. -/
theorem corrupt_record_like_absent_witness :
    (unload_modules srvDir (fsEmpty.setFile LOADED_MODULES_PATH .corrupt)
        false).1 = .error .noLoadedModules :=
  (corrupt_record_like_absent srvDir fsEmpty devA 50 true false).2.2.2.2.1 rfl

end RNNoise
